import Mathlib

/-!
Verification of the WebsiteWatcher change-detection core (`watcher.py`).

The embedding models Python strings as Lean `String`s (character lists),
file contents as `List Char`, and the cache directory as a map from file
name to file content.  The external collaborators (selenium renderer,
BeautifulSoup parser, notifier transport) are modelled by their observable
outputs: a rendered/selected page is a list of `DomPart`s (a decomposed
flag plus the pretty-printed lines of the node, i.e. the outcome of
`part.prettify().split("\n")`), and the notifier is modelled as the list
of (recipient, message) pairs handed to it.  `hashlib.sha256` is modelled
by a full executable SHA-256 (FIPS 180-4) over the UTF-8 bytes of the URL,
matching `hashlib.sha256(url.encode("utf-8")).hexdigest()`.
-/

namespace Watcher

/-- The `DiffResult` enum of `watcher.py`. -/
inductive DiffResult where
  | NO_CHANGE
  | INITIALIZED
  | CHANGE
  | SELECTOR_CHANGED
deriving DecidableEq, Repr

/-- The Python exceptions that matter to the control flow of `watcher.py`:
`ValueError` and `NoSuchElementException` are caught by `check_change`;
`IndexError` (raised by `read_cache` on `lines[0]` of an empty file) is not. -/
inductive PyErr where
  | valueError (detail : String)
  | noSuchElement (detail : String)
  | indexError
deriving DecidableEq, Repr

/-- One node matched by the css selector, as seen by the loop in
`check_if_url_changed`: whether the node was already decomposed when the
loop reaches it, and the lines of `part.prettify().split("\n")` after the
remove-selectors have been applied. -/
structure DomPart where
  decomposed : Bool
  prettyLines : List String
deriving DecidableEq, Repr

/-- The separator literal of `watcher.py` line 151 (spelled `SEGEMENT` in the source). -/
def SEPARATOR : String := "##### SEGEMENT SEPARATOR #####"

/-- The body of the `for idx, part in enumerate(relevant_parts)` loop of
`check_if_url_changed` (lines 130-151): skip decomposed parts, keep the
non-empty pretty lines, and append the separator after every part whose
index is not the last index of the original list. -/
def contentLoop (n : Nat) : Nat → List DomPart → List String
  | _, [] => []
  | idx, p :: rest =>
    if p.decomposed then contentLoop n (idx + 1) rest
    else p.prettyLines.filter (fun l => decide (l ≠ "")) ++
      (if idx ≠ n - 1 then [SEPARATOR] else []) ++ contentLoop n (idx + 1) rest

/-- `content_to_compare` as built by `check_if_url_changed` from the selected parts. -/
def content_to_compare (parts : List DomPart) : List String :=
  contentLoop parts.length 0 parts

/-- The serialization one non-decomposed part contributes:
`filter(lambda x: x, part.prettify().split("\n"))`. -/
def node_serialization (p : DomPart) : List String :=
  p.prettyLines.filter (fun l => decide (l ≠ ""))

/-- Serializations joined with a single separator line strictly between
consecutive ones (the shape `content_to_compare` takes when no part is
decomposed). -/
def sep_join : List (List String) → List String
  | [] => []
  | [s] => s
  | s :: rest => s ++ SEPARATOR :: sep_join rest

/-- Helper for `py_readlines`: accumulates the current (reversed) line. -/
def readlinesAux : List Char → List Char → List (List Char)
  | [], acc => if acc = [] then [] else [acc.reverse]
  | c :: rest, acc =>
    if c = '\n' then (acc.reverse ++ ['\n']) :: readlinesAux rest []
    else readlinesAux rest (c :: acc)

/-- Python's `fh.readlines()`: split after every newline, keeping the newline. -/
def py_readlines (content : List Char) : List (List Char) :=
  readlinesAux content []

/-- Python's `x.replace("\n", "")`: remove every newline character. -/
def strip_newlines (l : List Char) : List Char :=
  l.filter (fun c => decide (c ≠ '\n'))

/-- `read_cache` of `watcher.py` (lines 79-87), applied to the content of the
cache file for the URL (`none` when `os.path.isfile` is false).  An existing
but empty file makes `lines[0]` raise `IndexError`. -/
def read_cache (content : Option (List Char)) : Except PyErr (Option (String × List String)) :=
  match content with
  | none => .ok none
  | some text =>
    match py_readlines text with
    | [] => .error .indexError
    | l0 :: rest =>
      .ok (some (String.mk (strip_newlines l0), rest.map (fun l => String.mk (strip_newlines l))))

/-- The bytes written by `write_cache` of `watcher.py` (lines 90-98): the css
selector followed by a newline, then every content line, newline-terminated
unless the line already ends with a newline. -/
def write_cache_data (css_selector : String) (content : List String) : List Char :=
  css_selector.data ++ '\n' ::
    (content.map (fun line =>
      if line.data.getLast? = some '\n' then line.data else line.data ++ ['\n'])).flatten

/-- 32-bit truncation. -/
def w32 (n : Nat) : Nat := n % 4294967296

/-- 32-bit rotate right. -/
def rotr32 (x n : Nat) : Nat := w32 ((x >>> n) ||| (x <<< (32 - n)))

/-- The SHA-256 round constants. -/
def shaK : List Nat :=
  [1116352408, 1899447441, 3049323471, 3921009573, 961987163,
   1508970993, 2453635748, 2870763221, 3624381080, 310598401,
   607225278, 1426881987, 1925078388, 2162078206, 2614888103,
   3248222580, 3835390401, 4022224774, 264347078, 604807628,
   770255983, 1249150122, 1555081692, 1996064986, 2554220882,
   2821834349, 2952996808, 3210313671, 3336571891, 3584528711,
   113926993, 338241895, 666307205, 773529912, 1294757372,
   1396182291, 1695183700, 1986661051, 2177026350, 2456956037,
   2730485921, 2820302411, 3259730800, 3345764771, 3516065817,
   3600352804, 4094571909, 275423344, 430227734, 506948616,
   659060556, 883997877, 958139571, 1322822218, 1537002063,
   1747873779, 1955562222, 2024104815, 2227730452, 2361852424,
   2428436474, 2756734187, 3204031479, 3329325298]

/-- The SHA-256 initial hash value. -/
def shaH0 : List Nat :=
  [1779033703, 3144134277, 1013904242,
   2773480762, 1359893119, 2600822924,
   528734635, 1541459225]

/-- One extension step of the SHA-256 message schedule. -/
def scheduleStep (ws : List Nat) : List Nat :=
  let i := ws.length
  let w15 := ws.getD (i - 15) 0
  let w2 := ws.getD (i - 2) 0
  let w16 := ws.getD (i - 16) 0
  let w7 := ws.getD (i - 7) 0
  let s0 := (rotr32 w15 7) ^^^ (rotr32 w15 18) ^^^ (w15 >>> 3)
  let s1 := (rotr32 w2 17) ^^^ (rotr32 w2 19) ^^^ (w2 >>> 10)
  ws ++ [w32 (w16 + s0 + w7 + s1)]

/-- Iterate the schedule extension. -/
def extendSchedule : Nat → List Nat → List Nat
  | 0, ws => ws
  | n + 1, ws => extendSchedule n (scheduleStep ws)

/-- One SHA-256 compression round on the 8-word state. -/
def compressStep (st : List Nat) (kw : Nat × Nat) : List Nat :=
  let a := st.getD 0 0
  let b := st.getD 1 0
  let c := st.getD 2 0
  let d := st.getD 3 0
  let e := st.getD 4 0
  let f := st.getD 5 0
  let g := st.getD 6 0
  let h := st.getD 7 0
  let bigS1 := (rotr32 e 6) ^^^ (rotr32 e 11) ^^^ (rotr32 e 25)
  let ch := (e &&& f) ^^^ ((e ^^^ 0xffffffff) &&& g)
  let temp1 := w32 (h + bigS1 + ch + kw.1 + kw.2)
  let bigS0 := (rotr32 a 2) ^^^ (rotr32 a 13) ^^^ (rotr32 a 22)
  let maj := (a &&& b) ^^^ (a &&& c) ^^^ (b &&& c)
  let temp2 := w32 (bigS0 + maj)
  [w32 (temp1 + temp2), a, b, c, w32 (d + temp1), e, f, g]

/-- Big-endian conversion of up to four bytes to a 32-bit word. -/
def bytesToWord (bs : List Nat) : Nat := bs.foldl (fun a b => a * 256 + b) 0

/-- Process one 64-byte block. -/
def compressBlock (hs : List Nat) (block : List Nat) : List Nat :=
  let ws0 := (List.range 16).map (fun i => bytesToWord ((block.drop (4 * i)).take 4))
  let ws := extendSchedule 48 ws0
  let fin := (shaK.zip ws).foldl compressStep hs
  List.zipWith (fun x y => w32 (x + y)) hs fin

/-- The eight big-endian bytes of the 64-bit message length. -/
def lengthBytes (n : Nat) : List Nat :=
  (List.range 8).map (fun i => (n >>> (8 * (7 - i))) % 256)

/-- SHA-256 padding: 0x80, zeros to 56 mod 64, then the bit length. -/
def padMessage (msg : List Nat) : List Nat :=
  msg ++ 0x80 :: List.replicate ((120 - ((msg.length + 1) % 64)) % 64) 0 ++
    lengthBytes (msg.length * 8)

/-- Split a byte list into 64-byte blocks. -/
def toBlocks : List Nat → List (List Nat)
  | [] => []
  | a :: rest => (a :: rest).take 64 :: toBlocks ((a :: rest).drop 64)
termination_by l => l.length
decreasing_by simp [List.length_drop]; omega

/-- The eight 32-bit words of the SHA-256 digest. -/
def sha256Words (msg : List Nat) : List Nat :=
  (toBlocks (padMessage msg)).foldl compressBlock shaH0

/-- Big-endian bytes of one 32-bit word. -/
def wordToBytes (w : Nat) : List Nat :=
  [(w >>> 24) % 256, (w >>> 16) % 256, (w >>> 8) % 256, w % 256]

/-- The 32 digest bytes. -/
def sha256Bytes (msg : List Nat) : List Nat :=
  ((sha256Words msg).map wordToBytes).flatten

/-- Lowercase hexadecimal digit. -/
def hexChar (n : Nat) : Char :=
  if n < 10 then Char.ofNat (48 + n) else Char.ofNat (87 + n)

/-- The lowercase hexadecimal digits. -/
def hexDigits : List Char := "0123456789abcdef".data

/-- Two hex characters of one byte. -/
def byteToHex (b : Nat) : List Char := [hexChar (b / 16 % 16), hexChar (b % 16)]

/-- Python's `.hexdigest()` over a byte list. -/
def hexdigest (bytes : List Nat) : String := String.mk ((bytes.map byteToHex).flatten)

/-- UTF-8 encoding of a single character (models `str.encode("utf-8")`). -/
def utf8Bytes (c : Char) : List Nat :=
  let n := c.toNat
  if n < 0x80 then [n]
  else if n < 0x800 then [0xC0 ||| (n >>> 6), 0x80 ||| (n &&& 0x3F)]
  else if n < 0x10000 then
    [0xE0 ||| (n >>> 12), 0x80 ||| ((n >>> 6) &&& 0x3F), 0x80 ||| (n &&& 0x3F)]
  else
    [0xF0 ||| (n >>> 18), 0x80 ||| ((n >>> 12) &&& 0x3F),
     0x80 ||| ((n >>> 6) &&& 0x3F), 0x80 ||| (n &&& 0x3F)]

/-- UTF-8 encoding of a string. -/
def encodeUtf8 (s : String) : List Nat := (s.data.map utf8Bytes).flatten

/-- `get_file_name_for_url` of `watcher.py` (lines 70-71):
`hashlib.sha256(url.encode("utf-8")).hexdigest()`. -/
def get_file_name_for_url (url : String) : String :=
  hexdigest (sha256Bytes (encodeUtf8 url))

/-- Python's `os.path.join(d, f)` for the cases arising here. -/
def py_join (d f : String) : String :=
  if f.data.head? = some '/' then f
  else if d.data = [] ∨ d.data.getLast? = some '/' then String.mk (d.data ++ f.data)
  else String.mk (d.data ++ '/' :: f.data)

/-- The characters after the last slash. -/
def afterLastSlash (l : List Char) : List Char :=
  (l.reverse.takeWhile (fun c => decide (c ≠ '/'))).reverse

/-- Python's `os.path.basename`. -/
def py_basename (s : String) : String := String.mk (afterLastSlash s.data)

/-- The cache directory: a map from file name to file content. -/
def CacheDir : Type := String → Option (List Char)

/-- The observable outcome of one `check_if_url_changed` call: the returned
`DiffResult`, the returned file-name string, the cache directory after the
call, and the name of the diff artifact created during the call, if any. -/
structure CheckOutput where
  result : DiffResult
  file_name : String
  cache : CacheDir
  diff_created : Option String

/-- `check_if_url_changed` of `watcher.py` (lines 101-191).  `rendered` is the
outcome of `get_rendered_dom` plus the BeautifulSoup selection: either an
exception or the list of matched parts.  `millis` is `int(time.time() * 1000)`
at the time the diff path is built. -/
def check_if_url_changed (url css_selector diff_dir : String)
    (rendered : Except PyErr (List DomPart)) (cache : CacheDir) (millis : Nat) :
    Except PyErr CheckOutput :=
  match rendered with
  | .error e => .error e
  | .ok parts =>
    match read_cache (cache (get_file_name_for_url url)) with
    | .error e => .error e
    | .ok found =>
      match found with
      | none =>
        .ok { result := .INITIALIZED, file_name := get_file_name_for_url url,
              cache := fun k => if k = get_file_name_for_url url then
                some (write_cache_data css_selector (content_to_compare parts)) else cache k,
              diff_created := none }
      | some (cached_css_selector, cached_segment) =>
        if cached_segment = [] then
          .ok { result := .INITIALIZED, file_name := get_file_name_for_url url,
                cache := fun k => if k = get_file_name_for_url url then
                  some (write_cache_data css_selector (content_to_compare parts)) else cache k,
                diff_created := none }
        else if css_selector ≠ cached_css_selector then
          .ok { result := .SELECTOR_CHANGED, file_name := "",
                cache := fun k => if k = get_file_name_for_url url then none else cache k,
                diff_created := none }
        else if cached_segment ≠ content_to_compare parts then
          .ok { result := .CHANGE,
                file_name := py_basename (String.mk ((py_join diff_dir (get_file_name_for_url url)).data ++
                  ("_diff_" ++ toString millis ++ ".html").data)),
                cache := fun k => if k = get_file_name_for_url url then
                  some (write_cache_data css_selector (content_to_compare parts)) else cache k,
                diff_created := some (py_basename (String.mk ((py_join diff_dir (get_file_name_for_url url)).data ++
                  ("_diff_" ++ toString millis ++ ".html").data))) }
        else
          .ok { result := .NO_CHANGE, file_name := "",
                cache := fun k => if k = get_file_name_for_url url then
                  some (write_cache_data css_selector (content_to_compare parts)) else cache k,
                diff_created := none }

/-- The `DiffResult` of a check, forgetting the rest of the output. -/
def resultOf (x : Except PyErr CheckOutput) : Except PyErr DiffResult :=
  x.map (fun r => r.result)

/-- The cache directory after a check (unchanged when the check raised). -/
def cache_after (x : Except PyErr CheckOutput) (orig : CacheDir) : CacheDir :=
  match x with
  | .ok r => r.cache
  | .error _ => orig

/-- The diff artifact created by a check, if any. -/
def diff_of (x : Except PyErr CheckOutput) : Option String :=
  match x with
  | .ok r => r.diff_created
  | .error _ => none

/-- The file-name component of the returned tuple of a check. -/
def name_of (x : Except PyErr CheckOutput) : Except PyErr String :=
  x.map (fun r => r.file_name)

/-- One page of the configuration together with the external inputs of its up
to two check attempts: `rendered1`/`rendered2` are the render+select outcomes
of the first and second attempt, `millis1`/`millis2` the clock readings. -/
structure PageRun where
  name : String
  url : String
  css_selector : Option String
  recipient : Option String
  rendered1 : Except PyErr (List DomPart)
  rendered2 : Except PyErr (List DomPart)
  millis1 : Nat
  millis2 : Nat

/-- `page.get("recipient", default_recipient)`. -/
def effective_recipient (pageRecipient defaultRecipient : Option String) : Option String :=
  match pageRecipient with
  | some r => some r
  | none => defaultRecipient

/-- `send_notification` of `watcher.py` (lines 42-46): no message is handed to
the notifier when the recipient is falsy (absent or empty). -/
def send_notification (recipient : Option String) (message : String) : List (String × String) :=
  match recipient with
  | none => []
  | some r => if r = "" then [] else [(r, message)]

/-- The exception detail interpolated into the error f-string. -/
def err_detail : PyErr → String
  | .valueError d => d
  | .noSuchElement d => d
  | .indexError => ""

/-- Whether `check_change` has an `except` clause for the exception:
`ValueError` and `NoSuchElementException` are caught, nothing else. -/
def catches : PyErr → Bool
  | .valueError _ => true
  | .noSuchElement _ => true
  | .indexError => false

/-- The error message built in the `except` clauses of `check_change`. -/
def error_message (nickname url detail : String) : String :=
  "Error occured for [" ++ nickname ++ "](" ++ url ++ "): " ++ detail

/-- The message built for `DiffResult.INITIALIZED` in `check_change`. -/
def init_message (nickname url selector file_name : String) (cache_url : Option String) : String :=
  "Initialized new URL to watch: [" ++ nickname ++ "](" ++ url ++ ").\nUsed CSS selector: `" ++
    selector ++ "`." ++
    (match cache_url with
     | none => ""
     | some cu =>
       "\nThe segment that will be scanned for can be checked for correctness [here](" ++
         cu ++ file_name ++ ").\nFirst line is the css selector and not part of the segment.")

/-- The message built for `DiffResult.CHANGE` in `check_change`. -/
def change_message (nickname url file_name : String) (diff_url : Option String) : String :=
  "URL changed: [" ++ nickname ++ "](" ++ url ++ ")." ++
    (match diff_url with
     | none => ""
     | some du => "\nThe diff result can be found [here](" ++ du ++ file_name ++ ").")

/-- The notifications sent for one non-exceptional check result in
`check_change`: `INITIALIZED` and `CHANGE` notify, `NO_CHANGE` stays silent,
and `SELECTOR_CHANGED` falls through to the retry (no notification). -/
def outcome_notifications (nickname url selector : String)
    (recipient cache_url diff_url : Option String) (r : CheckOutput) : List (String × String) :=
  match r.result with
  | .INITIALIZED => send_notification recipient (init_message nickname url selector r.file_name cache_url)
  | .CHANGE => send_notification recipient (change_message nickname url r.file_name diff_url)
  | _ => []

/-- What processing one page in `check_change` produced: how often
`check_if_url_changed` was invoked, the notifications sent, the cache
directory afterwards, and an exception that escaped the `except` clauses. -/
structure PageOutcome where
  invocations : Nat
  notifications : List (String × String)
  cache : CacheDir
  uncaught : Option PyErr

/-- The `for _ in range(2)` loop of `check_change` (lines 267-303) for one
page: a caught exception notifies and breaks; `SELECTOR_CHANGED` retries
exactly once; everything else breaks after the notification mapping. -/
def process_page (p : PageRun) (st : CacheDir) (cache_url diff_url : Option String)
    (diff_dir : String) (default_recipient : Option String) : PageOutcome :=
  let recipient := effective_recipient p.recipient default_recipient
  let selector := p.css_selector.getD "html"
  match check_if_url_changed p.url selector diff_dir p.rendered1 st p.millis1 with
  | .error e =>
    if catches e then
      { invocations := 1,
        notifications := send_notification recipient (error_message p.name p.url (err_detail e)),
        cache := st, uncaught := none }
    else { invocations := 1, notifications := [], cache := st, uncaught := some e }
  | .ok r1 =>
    if r1.result = .SELECTOR_CHANGED then
      match check_if_url_changed p.url selector diff_dir p.rendered2 r1.cache p.millis2 with
      | .error e =>
        if catches e then
          { invocations := 2,
            notifications := send_notification recipient (error_message p.name p.url (err_detail e)),
            cache := r1.cache, uncaught := none }
        else { invocations := 2, notifications := [], cache := r1.cache, uncaught := some e }
      | .ok r2 =>
        { invocations := 2,
          notifications := outcome_notifications p.name p.url selector recipient cache_url diff_url r2,
          cache := r2.cache, uncaught := none }
    else
      { invocations := 1,
        notifications := outcome_notifications p.name p.url selector recipient cache_url diff_url r1,
        cache := r1.cache, uncaught := none }

/-- `check_change` of `watcher.py` (lines 249-303): sequentially process every
page, threading the cache directory; an exception without an `except` clause
escapes the whole loop (remaining pages are not processed). -/
def check_change (pages : List PageRun) (st : CacheDir) (cache_url diff_url : Option String)
    (diff_dir : String) (default_recipient : Option String) :
    Except PyErr (List (String × String) × CacheDir) :=
  match pages with
  | [] => .ok ([], st)
  | p :: rest =>
    let o := process_page p st cache_url diff_url diff_dir default_recipient
    match o.uncaught with
    | some e => .error e
    | none =>
      match check_change rest o.cache cache_url diff_url diff_dir default_recipient with
      | .error e => .error e
      | .ok (ns, fin) => .ok (o.notifications ++ ns, fin)

theorem mem_of_getLast_eq_some {α : Type} {l : List α} {a : α} (h : l.getLast? = some a) :
    a ∈ l := by
  obtain ⟨hne, rfl⟩ := List.mem_getLast?_eq_getLast (show a ∈ l.getLast? from h)
  exact List.getLast_mem hne

theorem getLast_ne_of_not_mem {α : Type} {l : List α} {a : α} (h : a ∉ l) :
    l.getLast? ≠ some a :=
  fun heq => h (mem_of_getLast_eq_some heq)

theorem readlinesAux_append {xs : List Char} (hxs : '\n' ∉ xs) :
    ∀ (acc ys : List Char),
      readlinesAux (xs ++ '\n' :: ys) acc = (acc.reverse ++ (xs ++ ['\n'])) :: readlinesAux ys [] := by
  induction xs with
  | nil =>
    intro acc ys
    simp [readlinesAux]
  | cons c xs ih =>
    intro acc ys
    have hc : ¬ (c = '\n') := fun h => hxs (h ▸ List.mem_cons_self c xs)
    have hxs' : '\n' ∉ xs := fun h => hxs (List.mem_cons_of_mem c h)
    simp only [List.cons_append, readlinesAux, if_neg hc]
    show readlinesAux (xs ++ '\n' :: ys) (c :: acc) = _
    rw [ih hxs' (c :: acc)]
    simp

theorem readlinesAux_flatten (S : List String) (hS : ∀ l ∈ S, '\n' ∉ l.data) :
    readlinesAux ((S.map (fun line =>
        if line.data.getLast? = some '\n' then line.data else line.data ++ ['\n'])).flatten) [] =
      S.map (fun l => l.data ++ ['\n']) := by
  induction S with
  | nil => simp [readlinesAux]
  | cons l S ih =>
    have hl : '\n' ∉ l.data := hS l (List.mem_cons_self l S)
    have hS' : ∀ x ∈ S, '\n' ∉ x.data := fun x hx => hS x (List.mem_cons_of_mem l hx)
    have hlast : ¬ (l.data.getLast? = some '\n') := getLast_ne_of_not_mem hl
    simp only [List.map_cons, List.flatten_cons, if_neg hlast]
    rw [List.append_assoc, List.singleton_append, readlinesAux_append hl, ih hS']
    simp

theorem strip_newlines_of_not_mem {l : List Char} (h : '\n' ∉ l) :
    strip_newlines (l ++ ['\n']) = l := by
  unfold strip_newlines
  rw [List.filter_append]
  have h1 : (l.filter fun c => decide (c ≠ '\n')) = l :=
    List.filter_eq_self.mpr (fun a ha => decide_eq_true (fun heq => h (heq ▸ ha)))
  have h2 : (['\n'].filter fun c => decide (c ≠ '\n')) = [] := by simp
  rw [h1, h2, List.append_nil]

/-- Cache round-trip at the file level: reading back a written entry whose
rule and lines contain no newline recovers the rule and the lines. -/
theorem py_readlines_write_cache (R : String) (S : List String) (hR : '\n' ∉ R.data)
    (hS : ∀ l ∈ S, '\n' ∉ l.data) :
    py_readlines (write_cache_data R S) =
      (R.data ++ ['\n']) :: S.map (fun l => l.data ++ ['\n']) := by
  unfold py_readlines write_cache_data
  rw [readlinesAux_append hR [] ((S.map (fun line =>
    if line.data.getLast? = some '\n' then line.data else line.data ++ ['\n'])).flatten),
    readlinesAux_flatten S hS]
  simp

/-- Cache round-trip at the file level: reading back a written entry whose
rule and lines contain no newline recovers the rule and the lines. -/
theorem read_cache_write_cache (R : String) (S : List String) (hR : '\n' ∉ R.data)
    (hS : ∀ l ∈ S, '\n' ∉ l.data) :
    read_cache (some (write_cache_data R S)) = .ok (some (R, S)) := by
  have hfirst : String.mk (strip_newlines (R.data ++ ['\n'])) = R := by
    rw [strip_newlines_of_not_mem hR]
  have hrest : (S.map (fun l => l.data ++ ['\n'])).map
      (fun l => String.mk (strip_newlines l)) = S := by
    rw [List.map_map]
    have hpt : ∀ l ∈ S, ((fun l => String.mk (strip_newlines l)) ∘
        (fun l : String => l.data ++ ['\n'])) l = id l := by
      intro l hl
      simp only [id, Function.comp]
      rw [strip_newlines_of_not_mem (hS l hl)]
    calc S.map ((fun l => String.mk (strip_newlines l)) ∘ (fun l : String => l.data ++ ['\n']))
        = S.map id := List.map_congr_left hpt
      _ = S := List.map_id S
  simp only [read_cache]
  rw [py_readlines_write_cache R S hR hS]
  simp only []
  rw [hfirst, hrest]

theorem flatten_getLast_newline (bs : List (List Char))
    (h : ∀ b ∈ bs, b.getLast? = some '\n') :
    bs.flatten.getLast? = some '\n' ∨ bs.flatten = [] := by
  induction bs with
  | nil => right; rfl
  | cons b rest ih =>
    have hb := h b (List.mem_cons_self b rest)
    have hrest := ih (fun x hx => h x (List.mem_cons_of_mem b hx))
    left
    rw [List.flatten_cons, List.getLast?_append]
    rcases hrest with hlast | hnil
    · rw [hlast]; rfl
    · rw [hnil]; simpa using hb

/-- The written cache file always ends with a newline. -/
theorem write_cache_data_newline_terminated (R : String) (S : List String) :
    (write_cache_data R S).getLast? = some '\n' := by
  unfold write_cache_data
  have hblocks : ∀ b ∈ S.map (fun line =>
      if line.data.getLast? = some '\n' then line.data else line.data ++ ['\n']),
      b.getLast? = some '\n' := by
    intro b hb
    obtain ⟨line, _, rfl⟩ := List.mem_map.mp hb
    by_cases hcase : line.data.getLast? = some '\n'
    · rw [if_pos hcase]; exact hcase
    · rw [if_neg hcase, List.getLast?_append]; rfl
  rw [List.getLast?_append]
  rcases flatten_getLast_newline _ hblocks with hlast | hnil
  · rw [show ('\n' :: (S.map (fun line =>
      if line.data.getLast? = some '\n' then line.data else line.data ++ ['\n'])).flatten).getLast?
      = some '\n' from ?_]
    · rfl
    · cases hflat : (S.map (fun line =>
        if line.data.getLast? = some '\n' then line.data else line.data ++ ['\n'])).flatten with
      | nil => rfl
      | cons x xs =>
        rw [List.getLast?_cons_cons]
        rw [hflat] at hlast
        exact hlast
  · rw [hnil]; rfl

/-- Behaviour of a check against an absent cache entry: write and report
`INITIALIZED` with the cache identity as artifact reference. -/
theorem check_no_entry (url css_selector diff_dir : String) (parts : List DomPart)
    (st : CacheDir) (m : Nat) (h : st (get_file_name_for_url url) = none) :
    check_if_url_changed url css_selector diff_dir (.ok parts) st m =
      .ok { result := .INITIALIZED, file_name := get_file_name_for_url url,
            cache := fun k => if k = get_file_name_for_url url then
              some (write_cache_data css_selector (content_to_compare parts)) else st k,
            diff_created := none } := by
  simp only [check_if_url_changed, h, read_cache]

/-- Behaviour of a check against a present, well-formed cache entry written
with rule `R` and segment `S`: the four-way branch of `check_if_url_changed`. -/
theorem check_entry (url css_selector diff_dir : String) (parts : List DomPart)
    (st : CacheDir) (m : Nat) (R : String) (S : List String)
    (hentry : st (get_file_name_for_url url) = some (write_cache_data R S))
    (hR : '\n' ∉ R.data) (hS : ∀ l ∈ S, '\n' ∉ l.data) :
    check_if_url_changed url css_selector diff_dir (.ok parts) st m =
      (if S = [] then
        .ok { result := .INITIALIZED, file_name := get_file_name_for_url url,
              cache := fun k => if k = get_file_name_for_url url then
                some (write_cache_data css_selector (content_to_compare parts)) else st k,
              diff_created := none }
      else if css_selector ≠ R then
        .ok { result := .SELECTOR_CHANGED, file_name := "",
              cache := fun k => if k = get_file_name_for_url url then none else st k,
              diff_created := none }
      else if S ≠ content_to_compare parts then
        .ok { result := .CHANGE,
              file_name := py_basename (String.mk ((py_join diff_dir (get_file_name_for_url url)).data ++
                ("_diff_" ++ toString m ++ ".html").data)),
              cache := fun k => if k = get_file_name_for_url url then
                some (write_cache_data css_selector (content_to_compare parts)) else st k,
              diff_created := some (py_basename (String.mk ((py_join diff_dir (get_file_name_for_url url)).data ++
                ("_diff_" ++ toString m ++ ".html").data))) }
      else
        .ok { result := .NO_CHANGE, file_name := "",
              cache := fun k => if k = get_file_name_for_url url then
                some (write_cache_data css_selector (content_to_compare parts)) else st k,
              diff_created := none }) := by
  simp only [check_if_url_changed, hentry, read_cache_write_cache R S hR hS]

/-- C10: for every existing cache entry whose stored segment is empty (the
persisted file holds only the selection-rule line), a check of that URL
behaves as if no entry existed: it returns `INITIALIZED` and overwrites the
entry with the current rule and segment, and the selection-rule-mismatch path
is never taken (the stored rule is arbitrary and may differ from the current
one). -/
theorem c10_empty_segment_entry_reinitialized
    (url css_selector diff_dir storedRule : String) (parts : List DomPart)
    (st : CacheDir) (m : Nat)
    (hfile : st (get_file_name_for_url url) = some (storedRule.data ++ ['\n']))
    (hR : '\n' ∉ storedRule.data) :
    resultOf (check_if_url_changed url css_selector diff_dir (.ok parts) st m) =
      .ok .INITIALIZED ∧
    cache_after (check_if_url_changed url css_selector diff_dir (.ok parts) st m) st
      (get_file_name_for_url url) =
      some (write_cache_data css_selector (content_to_compare parts)) ∧
    resultOf (check_if_url_changed url css_selector diff_dir (.ok parts) st m) ≠
      .ok .SELECTOR_CHANGED := by
  have hw : storedRule.data ++ ['\n'] = write_cache_data storedRule [] := by
    simp [write_cache_data]
  rw [hw] at hfile
  have h := check_entry url css_selector diff_dir parts st m storedRule [] hfile hR
    (by intro l hl; cases hl)
  rw [if_pos rfl] at h
  refine ⟨by rw [h]; rfl, ?_, by rw [h]; intro hcontra; cases hcontra⟩
  rw [h]
  simp [cache_after]

/-- Witness for C10 at a concrete input: stored rule `a`, current rule `b`,
entry file `a\n`. -/
theorem c10_witness :
    resultOf (check_if_url_changed "u" "b" "" (.ok []) (fun _ => some ("a".data ++ ['\n'])) 0) =
      .ok .INITIALIZED ∧
    cache_after (check_if_url_changed "u" "b" "" (.ok []) (fun _ => some ("a".data ++ ['\n'])) 0)
      (fun _ => some ("a".data ++ ['\n'])) (get_file_name_for_url "u") =
      some (write_cache_data "b" (content_to_compare [])) ∧
    resultOf (check_if_url_changed "u" "b" "" (.ok []) (fun _ => some ("a".data ++ ['\n'])) 0) ≠
      .ok .SELECTOR_CHANGED :=
  c10_empty_segment_entry_reinitialized "u" "b" "" "a" [] (fun _ => some ("a".data ++ ['\n'])) 0
    rfl (by decide)

/-- C1 (amended): for every page whose cache entry matches what a previous
successful check of the same rendered page with the same rule wrote, and whose
normalized segment is non-empty, running the check twice yields `NO_CHANGE`
both times, no diff artifact is created, and the cache directory is
byte-identical to its prior state after each run. -/
theorem c1_idempotent_unchanged (url css_selector diff_dir : String) (parts : List DomPart)
    (st : CacheDir) (m1 m2 : Nat)
    (hsel : '\n' ∉ css_selector.data)
    (hlines : ∀ l ∈ content_to_compare parts, '\n' ∉ l.data)
    (hne : content_to_compare parts ≠ [])
    (hentry : st (get_file_name_for_url url) =
      some (write_cache_data css_selector (content_to_compare parts))) :
    resultOf (check_if_url_changed url css_selector diff_dir (.ok parts) st m1) = .ok .NO_CHANGE ∧
    diff_of (check_if_url_changed url css_selector diff_dir (.ok parts) st m1) = none ∧
    (∀ k, cache_after (check_if_url_changed url css_selector diff_dir (.ok parts) st m1) st k = st k) ∧
    resultOf (check_if_url_changed url css_selector diff_dir (.ok parts)
      (cache_after (check_if_url_changed url css_selector diff_dir (.ok parts) st m1) st) m2) =
      .ok .NO_CHANGE ∧
    diff_of (check_if_url_changed url css_selector diff_dir (.ok parts)
      (cache_after (check_if_url_changed url css_selector diff_dir (.ok parts) st m1) st) m2) = none ∧
    (∀ k, cache_after (check_if_url_changed url css_selector diff_dir (.ok parts)
      (cache_after (check_if_url_changed url css_selector diff_dir (.ok parts) st m1) st) m2)
      (cache_after (check_if_url_changed url css_selector diff_dir (.ok parts) st m1) st) k = st k) := by
  have hselne : ¬ (css_selector ≠ css_selector) := fun h => h rfl
  have hcontne : ¬ (content_to_compare parts ≠ content_to_compare parts) := fun h => h rfl
  have h1 := check_entry url css_selector diff_dir parts st m1 css_selector
    (content_to_compare parts) hentry hsel hlines
  rw [if_neg hne, if_neg hselne, if_neg hcontne] at h1
  have hcache1 : ∀ k, cache_after (check_if_url_changed url css_selector diff_dir (.ok parts) st m1) st k = st k := by
    intro k
    rw [h1]
    simp only [cache_after]
    by_cases hk : k = get_file_name_for_url url
    · subst hk
      rw [if_pos rfl, hentry]
    · rw [if_neg hk]
  have hentry2 : (cache_after (check_if_url_changed url css_selector diff_dir (.ok parts) st m1) st)
      (get_file_name_for_url url) =
      some (write_cache_data css_selector (content_to_compare parts)) := by
    rw [hcache1]
    exact hentry
  have h2 := check_entry url css_selector diff_dir parts
    (cache_after (check_if_url_changed url css_selector diff_dir (.ok parts) st m1) st) m2
    css_selector (content_to_compare parts) hentry2 hsel hlines
  rw [if_neg hne, if_neg hselne, if_neg hcontne] at h2
  refine ⟨by rw [h1]; rfl, by rw [h1]; rfl, hcache1, by rw [h2]; rfl, by rw [h2]; rfl, ?_⟩
  intro k
  rw [h2]
  simp only [cache_after]
  by_cases hk : k = get_file_name_for_url url
  · subst hk
    rw [if_pos rfl, hentry]
  · rw [if_neg hk]
    exact hcache1 k

/-- Counterexample to C1 as stated: a page that already has a cache entry
(the file `html\n`), checked with an unchanged rendered page (a selector that
matches zero nodes, hence an empty normalized segment, both times) and an
unchanged rule, yields `INITIALIZED`, not `NO_CHANGE`. -/
theorem c1_counterexample :
    resultOf (check_if_url_changed "u" "html" "" (.ok []) (fun _ => some ("html".data ++ ['\n'])) 0) =
      .ok .INITIALIZED ∧
    (Except.ok DiffResult.INITIALIZED : Except PyErr DiffResult) ≠ .ok .NO_CHANGE :=
  ⟨rfl, by simp⟩

/-- Witness for C1 at a concrete input: rule `html`, one matched node
serializing to the single line `x`. -/
theorem c1_witness :
    resultOf (check_if_url_changed "u" "html" "" (.ok [⟨false, ["x"]⟩])
      (fun _ => some (write_cache_data "html" ["x"])) 0) = .ok .NO_CHANGE ∧
    resultOf (check_if_url_changed "u" "html" "" (.ok [⟨false, ["x"]⟩])
      (cache_after (check_if_url_changed "u" "html" "" (.ok [⟨false, ["x"]⟩])
        (fun _ => some (write_cache_data "html" ["x"])) 0)
        (fun _ => some (write_cache_data "html" ["x"]))) 1) = .ok .NO_CHANGE := by
  have h := c1_idempotent_unchanged "u" "html" "" [⟨false, ["x"]⟩]
    (fun _ => some (write_cache_data "html" ["x"])) 0 1 (by decide) (by decide) (by decide) rfl
  exact ⟨h.1, h.2.2.2.1⟩

/-- C2 (amended): for every cache entry written with selection rule `R1` and a
non-empty segment, a check of the same URL with rule `R2 ≠ R1` returns
`SELECTOR_CHANGED` with an empty file-name and no diff artifact and deletes
the cache entry, and the immediately following check with `R2` returns
`INITIALIZED`. -/
theorem c2_rule_change_recovery (url R1 R2 diff_dir : String) (parts1 parts2 : List DomPart)
    (st : CacheDir) (m1 m2 : Nat) (S : List String)
    (hentry : st (get_file_name_for_url url) = some (write_cache_data R1 S))
    (hR : '\n' ∉ R1.data) (hS : ∀ l ∈ S, '\n' ∉ l.data)
    (hSne : S ≠ []) (hrule : R2 ≠ R1) :
    resultOf (check_if_url_changed url R2 diff_dir (.ok parts1) st m1) = .ok .SELECTOR_CHANGED ∧
    name_of (check_if_url_changed url R2 diff_dir (.ok parts1) st m1) = .ok "" ∧
    diff_of (check_if_url_changed url R2 diff_dir (.ok parts1) st m1) = none ∧
    cache_after (check_if_url_changed url R2 diff_dir (.ok parts1) st m1) st
      (get_file_name_for_url url) = none ∧
    resultOf (check_if_url_changed url R2 diff_dir (.ok parts2)
      (cache_after (check_if_url_changed url R2 diff_dir (.ok parts1) st m1) st) m2) =
      .ok .INITIALIZED := by
  have h1 := check_entry url R2 diff_dir parts1 st m1 R1 S hentry hR hS
  rw [if_neg hSne, if_pos hrule] at h1
  have hdel : cache_after (check_if_url_changed url R2 diff_dir (.ok parts1) st m1) st
      (get_file_name_for_url url) = none := by
    rw [h1]
    simp [cache_after]
  refine ⟨by rw [h1]; rfl, by rw [h1]; rfl, by rw [h1]; rfl, hdel, ?_⟩
  rw [check_no_entry url R2 diff_dir parts2 _ m2 hdel]
  rfl

/-- Counterexample to C2 as stated: an entry written with rule `a` and an
empty segment, checked with rule `b ≠ a`, yields `INITIALIZED`, not
`SELECTOR_CHANGED`. -/
theorem c2_counterexample :
    resultOf (check_if_url_changed "u" "b" "" (.ok []) (fun _ => some (write_cache_data "a" [])) 0) =
      .ok .INITIALIZED ∧
    (Except.ok DiffResult.INITIALIZED : Except PyErr DiffResult) ≠ .ok .SELECTOR_CHANGED :=
  ⟨rfl, by simp⟩

/-- Witness for C2 at a concrete input: entry `{a, [x]}`, checked twice with
rule `b`. -/
theorem c2_witness :
    resultOf (check_if_url_changed "u" "b" "" (.ok [])
      (fun _ => some (write_cache_data "a" ["x"])) 0) = .ok .SELECTOR_CHANGED ∧
    name_of (check_if_url_changed "u" "b" "" (.ok [])
      (fun _ => some (write_cache_data "a" ["x"])) 0) = .ok "" ∧
    diff_of (check_if_url_changed "u" "b" "" (.ok [])
      (fun _ => some (write_cache_data "a" ["x"])) 0) = none ∧
    cache_after (check_if_url_changed "u" "b" "" (.ok [])
      (fun _ => some (write_cache_data "a" ["x"])) 0)
      (fun _ => some (write_cache_data "a" ["x"])) (get_file_name_for_url "u") = none ∧
    resultOf (check_if_url_changed "u" "b" "" (.ok [])
      (cache_after (check_if_url_changed "u" "b" "" (.ok [])
        (fun _ => some (write_cache_data "a" ["x"])) 0)
        (fun _ => some (write_cache_data "a" ["x"]))) 1) = .ok .INITIALIZED :=
  c2_rule_change_recovery "u" "a" "b" "" [] [] (fun _ => some (write_cache_data "a" ["x"]))
    0 1 ["x"] rfl (by decide) (by decide) (by decide) (by decide)

/-- C3 (amended): for every URL, selection rule `R` without a newline
character, and normalized segment `S` (whose lines contain no newline),
writing `{R, S}` into the cache and reading the URL back returns exactly
`{R, S}`; the persisted file's first line is `R`, its remaining lines are the
lines of `S` verbatim, and the file is always newline-terminated. -/
theorem c3_cache_round_trip (url R : String) (S : List String) (st : CacheDir)
    (hR : '\n' ∉ R.data) (hS : ∀ l ∈ S, '\n' ∉ l.data) :
    read_cache (((fun k => if k = get_file_name_for_url url
        then some (write_cache_data R S) else st k) : CacheDir) (get_file_name_for_url url)) =
      .ok (some (R, S)) ∧
    py_readlines (write_cache_data R S) = (R.data ++ ['\n']) :: S.map (fun l => l.data ++ ['\n']) ∧
    (write_cache_data R S).getLast? = some '\n' := by
  refine ⟨?_, py_readlines_write_cache R S hR hS, write_cache_data_newline_terminated R S⟩
  show read_cache (if get_file_name_for_url url = get_file_name_for_url url
    then some (write_cache_data R S) else st (get_file_name_for_url url)) = _
  rw [if_pos rfl]
  exact read_cache_write_cache R S hR hS

/-- Counterexample to C3 as stated: a selection rule containing a newline
(`a\nb`) with an empty segment does not round-trip: reading back yields the
rule `a` and the segment `[b]`. -/
theorem c3_counterexample :
    read_cache (some (write_cache_data "a\nb" [])) = .ok (some ("a", ["b"])) ∧
    (("a" : String), (["b"] : List String)) ≠ (("a\nb" : String), ([] : List String)) :=
  ⟨rfl, by decide⟩

/-- Witness for C3 at a concrete input: rule `r`, segment `[s1, s2]`. -/
theorem c3_witness :
    read_cache (((fun k => if k = get_file_name_for_url "u"
        then some (write_cache_data "r" ["s1", "s2"]) else (fun _ => none) k) : CacheDir)
        (get_file_name_for_url "u")) = .ok (some ("r", ["s1", "s2"])) ∧
    py_readlines (write_cache_data "r" ["s1", "s2"]) =
      ("r".data ++ ['\n']) :: ["s1", "s2"].map (fun l : String => l.data ++ ['\n']) ∧
    (write_cache_data "r" ["s1", "s2"]).getLast? = some '\n' :=
  c3_cache_round_trip "u" "r" ["s1", "s2"] (fun _ => none) (by decide) (by decide)

/-- C4 (amended): a persisted entry holding the selection-rule line but no
segment lines is treated as cache-absent and the page is re-initialized; an
empty (zero-byte) cache file, however, makes `lines[0]` raise `IndexError`,
which `check_change` does not catch, so the run aborts and the remaining
pages are not processed. -/
theorem c4_cache_corruption (url css_selector diff_dir storedRule : String)
    (parts : List DomPart) :
    (∀ (st : CacheDir) (m : Nat), st (get_file_name_for_url url) = some [] →
      check_if_url_changed url css_selector diff_dir (.ok parts) st m = .error .indexError) ∧
    (∀ (st : CacheDir) (m : Nat),
      st (get_file_name_for_url url) = some (storedRule.data ++ ['\n']) →
      '\n' ∉ storedRule.data →
      resultOf (check_if_url_changed url css_selector diff_dir (.ok parts) st m) =
        .ok .INITIALIZED) ∧
    (∀ (st : CacheDir) (p : PageRun) (rest : List PageRun)
      (cache_url diff_url dflt : Option String),
      p.url = url → p.css_selector = some css_selector → p.rendered1 = .ok parts →
      st (get_file_name_for_url url) = some [] →
      check_change (p :: rest) st cache_url diff_url diff_dir dflt = .error .indexError) := by
  have hcrash : ∀ (st : CacheDir) (m : Nat), st (get_file_name_for_url url) = some [] →
      check_if_url_changed url css_selector diff_dir (.ok parts) st m = .error .indexError := by
    intro st m h
    simp [check_if_url_changed, h, read_cache, py_readlines, readlinesAux]
  refine ⟨hcrash, ?_, ?_⟩
  · intro st m hfile hR
    have hw : storedRule.data ++ ['\n'] = write_cache_data storedRule [] := by
      simp [write_cache_data]
    rw [hw] at hfile
    have h := check_entry url css_selector diff_dir parts st m storedRule [] hfile hR
      (by intro l hl; cases hl)
    rw [if_pos rfl] at h
    rw [h]
    rfl
  · intro st p rest cache_url diff_url dflt hurl hsel hrend hempty
    have hc1 : check_if_url_changed p.url (p.css_selector.getD "html") diff_dir p.rendered1
        st p.millis1 = .error .indexError := by
      rw [hurl, hsel, hrend]
      simp only [Option.getD_some]
      exact hcrash st p.millis1 hempty
    simp only [check_change, process_page, hc1, catches]
    rfl

/-- Counterexample to C4 as stated: an existing but empty cache file does not
re-initialize the page; the whole batch run aborts with the uncaught
`IndexError` (the second configured page is never processed). -/
theorem c4_counterexample :
    check_change
      [{ name := "A", url := "u", css_selector := some "html", recipient := none,
         rendered1 := .ok [], rendered2 := .ok [], millis1 := 0, millis2 := 0 },
       { name := "B", url := "v", css_selector := some "html", recipient := none,
         rendered1 := .ok [], rendered2 := .ok [], millis1 := 0, millis2 := 0 }]
      (fun _ => some []) none none "" none = .error .indexError := rfl

/-- Witness for C4 at concrete inputs: an empty cache file crashes the check
and the batch; a rule-only cache file re-initializes. -/
theorem c4_witness :
    check_if_url_changed "u" "html" "" (.ok []) (fun _ => some []) 0 = .error .indexError ∧
    resultOf (check_if_url_changed "u" "html" "" (.ok [])
      (fun _ => some ("r".data ++ ['\n'])) 0) = .ok .INITIALIZED ∧
    check_change
      [{ name := "A", url := "u", css_selector := some "html", recipient := none,
         rendered1 := .ok [], rendered2 := .ok [], millis1 := 0, millis2 := 0 },
       { name := "B", url := "v", css_selector := some "html", recipient := none,
         rendered1 := .ok [], rendered2 := .ok [], millis1 := 0, millis2 := 0 }]
      (fun _ => some []) none none "" none = .error .indexError := by
  have h := c4_cache_corruption "u" "html" "" "r" []
  exact ⟨h.1 (fun _ => some []) 0 rfl, h.2.1 (fun _ => some ("r".data ++ ['\n'])) 0 rfl (by decide),
    h.2.2 (fun _ => some [])
      { name := "A", url := "u", css_selector := some "html", recipient := none,
        rendered1 := .ok [], rendered2 := .ok [], millis1 := 0, millis2 := 0 }
      [{ name := "B", url := "v", css_selector := some "html", recipient := none,
         rendered1 := .ok [], rendered2 := .ok [], millis1 := 0, millis2 := 0 }]
      none none none rfl rfl rfl rfl⟩

theorem contentLoop_sep_join : ∀ (parts : List DomPart),
    (∀ p ∈ parts, p.decomposed = false) →
    ∀ (idx n : Nat), idx + parts.length = n →
      contentLoop n idx parts = sep_join (parts.map node_serialization) := by
  intro parts
  induction parts with
  | nil => intro _ idx n _; rfl
  | cons p rest ih =>
    intro hdec idx n hn
    have hp : p.decomposed = false := hdec p (List.mem_cons_self p rest)
    have hrest : ∀ q ∈ rest, q.decomposed = false :=
      fun q hq => hdec q (List.mem_cons_of_mem p hq)
    simp only [contentLoop, hp, Bool.false_eq_true, if_false]
    cases rest with
    | nil =>
      have hidx : idx = n - 1 := by
        simp only [List.length_cons, List.length_nil] at hn
        omega
      rw [if_neg (show ¬ idx ≠ n - 1 from fun h => h hidx)]
      simp [sep_join, node_serialization, contentLoop]
    | cons q rs =>
      have hidx : idx ≠ n - 1 := by
        simp only [List.length_cons] at hn
        omega
      rw [if_pos hidx, ih hrest (idx + 1) n (by simp only [List.length_cons] at hn ⊢; omega)]
      simp [sep_join, node_serialization]

theorem count_sep_join : ∀ (ss : List (List String)), (∀ s ∈ ss, SEPARATOR ∉ s) →
    (sep_join ss).count SEPARATOR = ss.length - 1 := by
  intro ss
  induction ss with
  | nil => intro _; rfl
  | cons s rest ih =>
    intro h
    cases rest with
    | nil =>
      show s.count SEPARATOR = 0
      exact List.count_eq_zero.mpr (h s (List.mem_cons_self s []))
    | cons s2 rs =>
      rw [show sep_join (s :: s2 :: rs) = s ++ SEPARATOR :: sep_join (s2 :: rs) from rfl,
        List.count_append, List.count_cons,
        List.count_eq_zero.mpr (h s (List.mem_cons_self s (s2 :: rs))),
        ih (fun t ht => h t (List.mem_cons_of_mem s ht))]
      simp

theorem sep_join_ne_nil (s : List String) (rest : List (List String)) (hs : s ≠ []) :
    sep_join (s :: rest) ≠ [] := by
  cases rest with
  | nil => exact hs
  | cons s2 rs =>
    rw [show sep_join (s :: s2 :: rs) = s ++ SEPARATOR :: sep_join (s2 :: rs) from rfl]
    simp

theorem head_sep_join : ∀ (ss : List (List String)), (∀ s ∈ ss, SEPARATOR ∉ s) →
    (∀ s ∈ ss, s ≠ []) → (sep_join ss).head? ≠ some SEPARATOR := by
  intro ss h1 h2
  cases ss with
  | nil => simp [sep_join]
  | cons s rest =>
    have hs1 := h1 s (List.mem_cons_self s rest)
    have hs2 := h2 s (List.mem_cons_self s rest)
    obtain ⟨a, t, rfl⟩ : ∃ a t, s = a :: t := by
      cases s with
      | nil => exact absurd rfl hs2
      | cons a t => exact ⟨a, t, rfl⟩
    have ha : a ≠ SEPARATOR := fun heq => hs1 (heq ▸ List.mem_cons_self a t)
    cases rest with
    | nil =>
      show (a :: t).head? ≠ some SEPARATOR
      simpa using ha
    | cons s2 rs =>
      rw [show sep_join ((a :: t) :: s2 :: rs) = (a :: t) ++ SEPARATOR :: sep_join (s2 :: rs) from rfl]
      simpa using ha

theorem getLast_sep_join : ∀ (ss : List (List String)), (∀ s ∈ ss, SEPARATOR ∉ s) →
    (∀ s ∈ ss, s ≠ []) → (sep_join ss).getLast? ≠ some SEPARATOR := by
  intro ss
  induction ss with
  | nil => intro _ _; simp [sep_join]
  | cons s rest ih =>
    intro h1 h2
    cases rest with
    | nil =>
      show s.getLast? ≠ some SEPARATOR
      exact getLast_ne_of_not_mem (h1 s (List.mem_cons_self s []))
    | cons s2 rs =>
      rw [show sep_join (s :: s2 :: rs) = s ++ SEPARATOR :: sep_join (s2 :: rs) from rfl,
        List.getLast?_append]
      have hJne : sep_join (s2 :: rs) ≠ [] :=
        sep_join_ne_nil s2 rs (h2 s2 (List.mem_cons_of_mem s (List.mem_cons_self s2 rs)))
      have hcons : (SEPARATOR :: sep_join (s2 :: rs)).getLast? = (sep_join (s2 :: rs)).getLast? := by
        cases hJ : sep_join (s2 :: rs) with
        | nil => exact absurd hJ hJne
        | cons x xs => rw [List.getLast?_cons_cons]
      rw [hcons]
      have hlast : (sep_join (s2 :: rs)).getLast? ≠ some SEPARATOR :=
        ih (fun t ht => h1 t (List.mem_cons_of_mem s ht))
          (fun t ht => h2 t (List.mem_cons_of_mem s ht))
      cases hJl : (sep_join (s2 :: rs)).getLast? with
      | none => exact absurd (List.getLast?_eq_none_iff.mp hJl) hJne
      | some a =>
        rw [hJl] at hlast
        simpa using hlast

/-- C5 (amended): with the separator literal spelled as in the source
(`##### SEGEMENT SEPARATOR #####`), for every selection matching exactly N
nodes, none of which is removed by the exclude rules, whose serializations
are non-empty and never contain the separator line, the normalized segment
is the serializations joined with exactly N−1 separator lines, each strictly
between consecutive node outputs, never leading or trailing. -/
theorem c5_separator_correctness (parts : List DomPart)
    (hdec : ∀ p ∈ parts, p.decomposed = false)
    (hne : ∀ p ∈ parts, node_serialization p ≠ [])
    (hsep : ∀ p ∈ parts, SEPARATOR ∉ node_serialization p) :
    content_to_compare parts = sep_join (parts.map node_serialization) ∧
    (content_to_compare parts).count SEPARATOR = parts.length - 1 ∧
    (content_to_compare parts).head? ≠ some SEPARATOR ∧
    (content_to_compare parts).getLast? ≠ some SEPARATOR := by
  have h0 : content_to_compare parts = sep_join (parts.map node_serialization) :=
    contentLoop_sep_join parts hdec 0 parts.length (by omega)
  have hmap1 : ∀ s ∈ parts.map node_serialization, SEPARATOR ∉ s := by
    intro s hs
    obtain ⟨p, hp, rfl⟩ := List.mem_map.mp hs
    exact hsep p hp
  have hmap2 : ∀ s ∈ parts.map node_serialization, s ≠ [] := by
    intro s hs
    obtain ⟨p, hp, rfl⟩ := List.mem_map.mp hs
    exact hne p hp
  refine ⟨h0, ?_, ?_, ?_⟩
  · rw [h0, count_sep_join (parts.map node_serialization) hmap1, List.length_map]
  · rw [h0]
    exact head_sep_join (parts.map node_serialization) hmap1 hmap2
  · rw [h0]
    exact getLast_sep_join (parts.map node_serialization) hmap1 hmap2

/-- Counterexample to C5 as stated: the source's separator literal is spelled
`SEGEMENT`, so with two matched nodes the segment holds zero (not one)
occurrences of the claimed line `##### SEGMENT SEPARATOR #####`. -/
theorem c5_counterexample :
    (content_to_compare [⟨false, ["<p>"]⟩, ⟨false, ["<q>"]⟩]).count
      "##### SEGMENT SEPARATOR #####" = 0 ∧
    (0 : Nat) ≠ ([(⟨false, ["<p>"]⟩ : DomPart), ⟨false, ["<q>"]⟩] : List DomPart).length - 1 := by
  constructor
  · rfl
  · decide

/-- Witness for C5 at a concrete input: two matched nodes. -/
theorem c5_witness :
    content_to_compare [⟨false, ["<p>"]⟩, ⟨false, ["<q>"]⟩] =
      sep_join ([⟨false, ["<p>"]⟩, ⟨false, ["<q>"]⟩].map node_serialization) ∧
    (content_to_compare [⟨false, ["<p>"]⟩, ⟨false, ["<q>"]⟩]).count SEPARATOR =
      ([(⟨false, ["<p>"]⟩ : DomPart), ⟨false, ["<q>"]⟩] : List DomPart).length - 1 ∧
    (content_to_compare [⟨false, ["<p>"]⟩, ⟨false, ["<q>"]⟩]).head? ≠ some SEPARATOR ∧
    (content_to_compare [⟨false, ["<p>"]⟩, ⟨false, ["<q>"]⟩]).getLast? ≠ some SEPARATOR :=
  c5_separator_correctness [⟨false, ["<p>"]⟩, ⟨false, ["<q>"]⟩]
    (by decide) (by decide) (by decide)

/-- C6: during one check, a diff artifact is created if and only if the
outcome is `CHANGE`; and whenever the check reaches the comparison (an entry
with a non-empty segment and the current rule exists), the outcome is
`CHANGE` exactly when the cached segment and the new normalized segment
differ as line sequences. -/
theorem c6_diff_artifact_iff_change (url css_selector diff_dir : String)
    (rendered : Except PyErr (List DomPart)) (st : CacheDir) (m : Nat) :
    ((diff_of (check_if_url_changed url css_selector diff_dir rendered st m)).isSome ↔
      resultOf (check_if_url_changed url css_selector diff_dir rendered st m) = .ok .CHANGE) ∧
    (∀ (parts : List DomPart) (cachedSel : String) (cachedSeg : List String),
      rendered = .ok parts →
      read_cache (st (get_file_name_for_url url)) = .ok (some (cachedSel, cachedSeg)) →
      cachedSeg ≠ [] → cachedSel = css_selector →
      (resultOf (check_if_url_changed url css_selector diff_dir rendered st m) = .ok .CHANGE ↔
        cachedSeg ≠ content_to_compare parts)) := by
  cases rendered with
  | error e =>
    constructor
    · simp [check_if_url_changed, diff_of, resultOf, Except.map]
    · intro parts cachedSel cachedSeg hrend
      exact absurd hrend (by simp)
  | ok parts0 =>
    cases hrc : read_cache (st (get_file_name_for_url url)) with
    | error e =>
      constructor
      · simp [check_if_url_changed, hrc, diff_of, resultOf, Except.map]
      · intro parts cachedSel cachedSeg hrend hread
        exact absurd hread (by simp)
    | ok found =>
      cases found with
      | none =>
        constructor
        · simp [check_if_url_changed, hrc, diff_of, resultOf, Except.map]
        · intro parts cachedSel cachedSeg hrend hread
          exact absurd hread (by simp)
      | some pair =>
        obtain ⟨cs0, cg0⟩ := pair
        have hinv : ∀ (parts : List DomPart) (cachedSel : String) (cachedSeg : List String),
            Except.ok (ε := PyErr) parts0 = .ok parts →
            Except.ok (ε := PyErr) (some (cs0, cg0)) = .ok (some (cachedSel, cachedSeg)) →
            parts = parts0 ∧ cachedSel = cs0 ∧ cachedSeg = cg0 := by
          intro parts cachedSel cachedSeg hrend hread
          refine ⟨?_, ?_, ?_⟩
          · exact (Except.ok.inj hrend).symm
          · exact congrArg Prod.fst (Option.some.inj (Except.ok.inj hread)) |>.symm
          · exact congrArg Prod.snd (Option.some.inj (Except.ok.inj hread)) |>.symm
        by_cases hempty : cg0 = []
        · constructor
          · simp [check_if_url_changed, hrc, hempty, diff_of, resultOf, Except.map]
          · intro parts cachedSel cachedSeg hrend hread hne _
            obtain ⟨_, _, hseg⟩ := hinv parts cachedSel cachedSeg hrend hread
            exact absurd (hseg.trans hempty) hne
        · by_cases hrule : css_selector ≠ cs0
          · constructor
            · simp [check_if_url_changed, hrc, hempty, hrule, diff_of, resultOf, Except.map]
            · intro parts cachedSel cachedSeg hrend hread _ hsel
              obtain ⟨_, hcs, _⟩ := hinv parts cachedSel cachedSeg hrend hread
              exact absurd (hcs ▸ hsel : cs0 = css_selector).symm hrule
          · by_cases hdiff : cg0 ≠ content_to_compare parts0
            · constructor
              · simp [check_if_url_changed, hrc, hempty, hrule, hdiff, diff_of, resultOf, Except.map]
              · intro parts cachedSel cachedSeg hrend hread _ _
                obtain ⟨hparts, _, hseg⟩ := hinv parts cachedSel cachedSeg hrend hread
                subst hparts
                subst hseg
                simp [check_if_url_changed, hrc, hempty, hrule, hdiff, resultOf, Except.map]
            · constructor
              · simp [check_if_url_changed, hrc, hempty, hrule, hdiff, diff_of, resultOf, Except.map]
              · intro parts cachedSel cachedSeg hrend hread _ _
                obtain ⟨hparts, _, hseg⟩ := hinv parts cachedSel cachedSeg hrend hread
                subst hparts
                subst hseg
                simp [check_if_url_changed, hrc, hempty, hrule, hdiff, resultOf, Except.map]

/-- Witness for C6 at a concrete input: the entry `{html, [x]}` and a page
now serializing to `[y]`, which differ. -/
theorem c6_witness :
    ((diff_of (check_if_url_changed "u" "html" "" (.ok [⟨false, ["y"]⟩])
      (fun _ => some (write_cache_data "html" ["x"])) 0)).isSome ↔
      resultOf (check_if_url_changed "u" "html" "" (.ok [⟨false, ["y"]⟩])
        (fun _ => some (write_cache_data "html" ["x"])) 0) = .ok .CHANGE) ∧
    (resultOf (check_if_url_changed "u" "html" "" (.ok [⟨false, ["y"]⟩])
      (fun _ => some (write_cache_data "html" ["x"])) 0) = .ok .CHANGE ↔
      (["x"] : List String) ≠ content_to_compare [⟨false, ["y"]⟩]) := by
  have h := c6_diff_artifact_iff_change "u" "html" "" (.ok [⟨false, ["y"]⟩])
    (fun _ => some (write_cache_data "html" ["x"])) 0
  exact ⟨h.1, h.2 [⟨false, ["y"]⟩] "html" ["x"] rfl rfl (by decide) rfl⟩

theorem check_selector_changed_cache (url css_selector diff_dir : String)
    (rendered : Except PyErr (List DomPart)) (st : CacheDir) (m : Nat) (r : CheckOutput)
    (h : check_if_url_changed url css_selector diff_dir rendered st m = .ok r)
    (hres : r.result = .SELECTOR_CHANGED) :
    r.cache (get_file_name_for_url url) = none := by
  cases rendered with
  | error e => simp only [check_if_url_changed] at h; cases h
  | ok parts =>
    cases hrc : read_cache (st (get_file_name_for_url url)) with
    | error e => simp only [check_if_url_changed, hrc] at h; cases h
    | ok found =>
      cases found with
      | none =>
        simp only [check_if_url_changed, hrc] at h
        rw [← Except.ok.inj h] at hres
        cases hres
      | some pair =>
        obtain ⟨cs0, cg0⟩ := pair
        simp only [check_if_url_changed, hrc] at h
        split_ifs at h with h1 h2 h3
        · rw [← Except.ok.inj h] at hres
          cases hres
        · rw [← Except.ok.inj h]
          simp
        · rw [← Except.ok.inj h] at hres
          cases hres
        · rw [← Except.ok.inj h] at hres
          cases hres

/-- C7: for each configured page, the batch runner invokes the per-page check
at most twice; it performs the second invocation exactly when the first
result is `SELECTOR_CHANGED`; and the second invocation can never yield
`SELECTOR_CHANGED` again (the entry was deleted, so a successful second check
is an initialization), so the loop terminates without further retries. -/
theorem c7_bounded_retry (p : PageRun) (st : CacheDir) (cache_url diff_url : Option String)
    (diff_dir : String) (dflt : Option String) :
    (process_page p st cache_url diff_url diff_dir dflt).invocations ≤ 2 ∧
    ((process_page p st cache_url diff_url diff_dir dflt).invocations = 2 ↔
      resultOf (check_if_url_changed p.url (p.css_selector.getD "html") diff_dir p.rendered1 st
        p.millis1) = .ok .SELECTOR_CHANGED) ∧
    (resultOf (check_if_url_changed p.url (p.css_selector.getD "html") diff_dir p.rendered1 st
        p.millis1) = .ok .SELECTOR_CHANGED →
      resultOf (check_if_url_changed p.url (p.css_selector.getD "html") diff_dir p.rendered2
        (cache_after (check_if_url_changed p.url (p.css_selector.getD "html") diff_dir
          p.rendered1 st p.millis1) st) p.millis2) ≠ .ok .SELECTOR_CHANGED) := by
  cases hc1 : check_if_url_changed p.url (p.css_selector.getD "html") diff_dir p.rendered1 st
      p.millis1 with
  | error e =>
    refine ⟨?_, ?_, ?_⟩
    · simp only [process_page, hc1]
      split_ifs <;> simp
    · simp only [process_page, hc1]
      split_ifs <;> simp [resultOf, Except.map]
    · intro hres
      simp [resultOf, Except.map] at hres
  | ok r1 =>
    by_cases hsel : r1.result = .SELECTOR_CHANGED
    · have hdel : r1.cache (get_file_name_for_url p.url) = none :=
        check_selector_changed_cache p.url (p.css_selector.getD "html") diff_dir p.rendered1 st
          p.millis1 r1 hc1 hsel
      refine ⟨?_, ?_, ?_⟩
      · simp only [process_page, hc1, if_pos hsel]
        cases hc2 : check_if_url_changed p.url (p.css_selector.getD "html") diff_dir p.rendered2
            r1.cache p.millis2 with
        | error e2 => by_cases hcat : catches e2 = true <;> simp [hcat]
        | ok r2 => simp
      · simp only [process_page, hc1, if_pos hsel]
        cases hc2 : check_if_url_changed p.url (p.css_selector.getD "html") diff_dir p.rendered2
            r1.cache p.millis2 with
        | error e2 => by_cases hcat : catches e2 = true <;> simp [hcat, resultOf, Except.map, hsel]
        | ok r2 => simp [resultOf, Except.map, hsel]
      · intro _
        rw [show cache_after (Except.ok r1) st = r1.cache from rfl]
        cases hrend2 : p.rendered2 with
        | error e2 =>
          rw [show check_if_url_changed p.url (p.css_selector.getD "html") diff_dir
            (.error e2) r1.cache p.millis2 = .error e2 from rfl]
          simp [resultOf, Except.map]
        | ok parts2 =>
          rw [check_no_entry p.url (p.css_selector.getD "html") diff_dir parts2 r1.cache
            p.millis2 hdel]
          simp [resultOf, Except.map]
    · refine ⟨?_, ?_, ?_⟩
      · simp only [process_page, hc1, if_neg hsel]
        simp
      · simp only [process_page, hc1, if_neg hsel]
        simp [resultOf, Except.map, hsel]
      · intro hres
        simp [resultOf, Except.map] at hres
        exact absurd hres hsel

/-- Witness for C7 at a concrete input forcing the retry: entry `{a, [x]}`
and current rule `b`. -/
theorem c7_witness :
    (process_page
      { name := "A", url := "u", css_selector := some "b", recipient := none,
        rendered1 := .ok [], rendered2 := .ok [], millis1 := 0, millis2 := 0 }
      (fun _ => some (write_cache_data "a" ["x"])) none none "" none).invocations = 2 ∧
    resultOf (check_if_url_changed "u" "b" "" (.ok [])
      (cache_after (check_if_url_changed "u" "b" "" (.ok [])
        (fun _ => some (write_cache_data "a" ["x"])) 0)
        (fun _ => some (write_cache_data "a" ["x"]))) 0) ≠ .ok .SELECTOR_CHANGED := by
  have h := c7_bounded_retry
    { name := "A", url := "u", css_selector := some "b", recipient := none,
      rendered1 := .ok [], rendered2 := .ok [], millis1 := 0, millis2 := 0 }
    (fun _ => some (write_cache_data "a" ["x"])) none none "" none
  exact ⟨h.2.1.mpr rfl, h.2.2 rfl⟩

/-- C8: a per-page error of a kind `check_change` catches (`ValueError` for
invalid configuration values, `NoSuchElementException` for render/element
failures) is converted into a notification to that page's recipient (falling
back to the configured default), leaves the cache untouched, and processing
continues with the remaining pages exactly as if the failed page's
notification were merely prepended. -/
theorem c8_error_isolation (p : PageRun) (rest : List PageRun) (st : CacheDir)
    (cache_url diff_url : Option String) (diff_dir : String) (dflt : Option String)
    (e : PyErr) (h1 : p.rendered1 = .error e) (h2 : catches e = true) :
    process_page p st cache_url diff_url diff_dir dflt =
      { invocations := 1,
        notifications := send_notification (effective_recipient p.recipient dflt)
          (error_message p.name p.url (err_detail e)),
        cache := st, uncaught := none } ∧
    check_change (p :: rest) st cache_url diff_url diff_dir dflt =
      (match check_change rest st cache_url diff_url diff_dir dflt with
       | .error e2 => .error e2
       | .ok (ns, fin) => .ok (send_notification (effective_recipient p.recipient dflt)
           (error_message p.name p.url (err_detail e)) ++ ns, fin)) := by
  have hc1 : check_if_url_changed p.url (p.css_selector.getD "html") diff_dir p.rendered1 st
      p.millis1 = .error e := by
    rw [h1]
    rfl
  have hpp : process_page p st cache_url diff_url diff_dir dflt =
      { invocations := 1,
        notifications := send_notification (effective_recipient p.recipient dflt)
          (error_message p.name p.url (err_detail e)),
        cache := st, uncaught := none } := by
    simp only [process_page, hc1, h2, if_true]
  refine ⟨hpp, ?_⟩
  simp only [check_change, hpp]

/-- Witness for C8 at a concrete input: page `A` raising a `ValueError`, with
recipient `bob`, followed by a second page `B`. -/
theorem c8_witness :
    process_page
      { name := "A", url := "u", css_selector := none, recipient := some "bob",
        rendered1 := .error (.valueError "boom"), rendered2 := .ok [],
        millis1 := 0, millis2 := 0 }
      (fun _ => none) none none "" (some "d") =
      { invocations := 1,
        notifications := send_notification (effective_recipient (some "bob") (some "d"))
          (error_message "A" "u" (err_detail (.valueError "boom"))),
        cache := (fun _ => none), uncaught := none } ∧
    check_change
      [{ name := "A", url := "u", css_selector := none, recipient := some "bob",
         rendered1 := .error (.valueError "boom"), rendered2 := .ok [],
         millis1 := 0, millis2 := 0 },
       { name := "B", url := "v", css_selector := none, recipient := none,
         rendered1 := .ok [], rendered2 := .ok [], millis1 := 0, millis2 := 0 }]
      (fun _ => none) none none "" (some "d") =
      (match check_change
        [{ name := "B", url := "v", css_selector := none, recipient := none,
           rendered1 := .ok [], rendered2 := .ok [], millis1 := 0, millis2 := 0 }]
        (fun _ => none) none none "" (some "d") with
       | .error e2 => .error e2
       | .ok (ns, fin) => .ok (send_notification (effective_recipient (some "bob") (some "d"))
           (error_message "A" "u" (err_detail (.valueError "boom"))) ++ ns, fin)) :=
  c8_error_isolation
    { name := "A", url := "u", css_selector := none, recipient := some "bob",
      rendered1 := .error (.valueError "boom"), rendered2 := .ok [],
      millis1 := 0, millis2 := 0 }
    [{ name := "B", url := "v", css_selector := none, recipient := none,
       rendered1 := .ok [], rendered2 := .ok [], millis1 := 0, millis2 := 0 }]
    (fun _ => none) none none "" (some "d") (.valueError "boom") rfl rfl

theorem hexChar_mem_hexDigits : ∀ n, n < 16 → hexChar n ∈ hexDigits := by decide

theorem byteToHex_mem_hexDigits (b : Nat) : ∀ c ∈ byteToHex b, c ∈ hexDigits := by
  intro c hc
  unfold byteToHex at hc
  rcases List.mem_cons.mp hc with rfl | hc2
  · exact hexChar_mem_hexDigits _ (Nat.mod_lt _ (by norm_num))
  · rcases List.mem_cons.mp hc2 with rfl | h3
    · exact hexChar_mem_hexDigits _ (Nat.mod_lt _ (by norm_num))
    · cases h3

theorem foldl_compressStep_aux : ∀ (ps : List (Nat × Nat)) (st : List Nat), st.length = 8 →
    (ps.foldl compressStep st).length = 8 := by
  intro ps
  induction ps with
  | nil => intro st h; exact h
  | cons q qs ih => intro st _; exact ih (compressStep st q) rfl

theorem foldl_compressStep_length (ps : List (Nat × Nat)) (st : List Nat) (h : ps ≠ []) :
    (ps.foldl compressStep st).length = 8 := by
  cases ps with
  | nil => exact absurd rfl h
  | cons q qs => exact foldl_compressStep_aux qs (compressStep st q) rfl

theorem extendSchedule_length : ∀ (n : Nat) (ws : List Nat),
    (extendSchedule n ws).length = ws.length + n := by
  intro n
  induction n with
  | zero => intro ws; rfl
  | succ k ih =>
    intro ws
    rw [show extendSchedule (k + 1) ws = extendSchedule k (scheduleStep ws) from rfl, ih]
    simp [scheduleStep]
    omega

theorem compressBlock_length (hs block : List Nat) (h : hs.length = 8) :
    (compressBlock hs block).length = 8 := by
  unfold compressBlock
  have hws : (extendSchedule 48 ((List.range 16).map
      (fun i => bytesToWord ((block.drop (4 * i)).take 4)))).length = 64 := by
    rw [extendSchedule_length]
    simp
  have hzip : (shaK.zip (extendSchedule 48 ((List.range 16).map
      (fun i => bytesToWord ((block.drop (4 * i)).take 4))))) ≠ [] := by
    intro hcon
    have hlen := congrArg List.length hcon
    rw [List.length_zip, hws] at hlen
    simp [shaK] at hlen
  rw [List.length_zipWith, h, foldl_compressStep_length _ _ hzip]
  rfl

theorem sha256Words_length (msg : List Nat) : (sha256Words msg).length = 8 := by
  unfold sha256Words
  have haux : ∀ (bs : List (List Nat)) (hs : List Nat), hs.length = 8 →
      (bs.foldl compressBlock hs).length = 8 := by
    intro bs
    induction bs with
    | nil => intro hs h; exact h
    | cons b bs ih => intro hs h; exact ih (compressBlock hs b) (compressBlock_length hs b h)
  exact haux _ shaH0 rfl

theorem flatten_map_const_length {α β : Type} (f : α → List β) (k : Nat)
    (hf : ∀ a, (f a).length = k) : ∀ (l : List α), ((l.map f).flatten).length = k * l.length := by
  intro l
  induction l with
  | nil => simp
  | cons a t ih =>
    simp only [List.map_cons, List.flatten_cons, List.length_append, ih, hf a, List.length_cons]
    ring

theorem sha256Bytes_length (msg : List Nat) : (sha256Bytes msg).length = 32 := by
  unfold sha256Bytes
  rw [flatten_map_const_length wordToBytes 4 (fun w => rfl), sha256Words_length]

theorem get_file_name_for_url_length (url : String) :
    (get_file_name_for_url url).length = 64 := by
  show ((sha256Bytes (encodeUtf8 url)).map byteToHex).flatten.length = 64
  rw [flatten_map_const_length byteToHex 2 (fun b => rfl), sha256Bytes_length]

theorem get_file_name_for_url_hex (url : String) :
    ∀ c ∈ (get_file_name_for_url url).data, c ∈ hexDigits := by
  intro c hc
  have hc' : c ∈ ((sha256Bytes (encodeUtf8 url)).map byteToHex).flatten := hc
  obtain ⟨bl, hbl, hcbl⟩ := List.mem_flatten.mp hc'
  obtain ⟨b, _, rfl⟩ := List.mem_map.mp hbl
  exact byteToHex_mem_hexDigits b c hcbl

theorem get_file_name_for_url_no_slash (url : String) :
    '/' ∉ (get_file_name_for_url url).data := by
  intro hmem
  have := get_file_name_for_url_hex url '/' hmem
  simp [hexDigits] at this

theorem get_file_name_for_url_ne_nil (url : String) :
    (get_file_name_for_url url).data ≠ [] := by
  intro hcon
  have := get_file_name_for_url_length url
  rw [show (get_file_name_for_url url).length = (get_file_name_for_url url).data.length from rfl,
    hcon] at this
  simp at this

theorem takeWhile_append_all {α : Type} {p : α → Bool} : ∀ (l2 l1 : List α),
    (∀ a ∈ l2, p a = true) → (l2 ++ l1).takeWhile p = l2 ++ l1.takeWhile p := by
  intro l2
  induction l2 with
  | nil => intro l1 _; simp
  | cons a t ih =>
    intro l1 h
    rw [List.cons_append, List.takeWhile_cons, if_pos (h a (List.mem_cons_self a t)),
      ih l1 (fun x hx => h x (List.mem_cons_of_mem a hx))]
    simp

theorem afterLastSlash_append (l₁ l₂ : List Char) (h : '/' ∉ l₂) :
    afterLastSlash (l₁ ++ l₂) = afterLastSlash l₁ ++ l₂ := by
  unfold afterLastSlash
  rw [List.reverse_append, takeWhile_append_all l₂.reverse l₁.reverse
    (by
      intro a ha
      have : a ≠ '/' := fun heq => h (heq ▸ List.mem_reverse.mp ha)
      simpa using this)]
  simp

theorem afterLastSlash_of_ends_slash (d : List Char) (h : d.getLast? = some '/') :
    afterLastSlash d = [] := by
  have hrev : d.reverse.head? = some '/' := by
    rw [List.head?_reverse]
    exact h
  unfold afterLastSlash
  cases hd : d.reverse with
  | nil => rfl
  | cons c t =>
    rw [hd] at hrev
    have : c = '/' := Option.some.inj hrev
    subst this
    rw [List.takeWhile_cons, if_neg (by simp)]
    rfl

theorem afterLastSlash_py_join (d hash : String)
    (hh : '/' ∉ hash.data) : afterLastSlash (py_join d hash).data = hash.data := by
  have hhead : ¬ (hash.data.head? = some '/') := by
    intro heq
    cases hcase : hash.data with
    | nil => rw [hcase] at heq; cases heq
    | cons c t =>
      rw [hcase] at heq
      have : c = '/' := Option.some.inj heq
      subst this
      exact hh (hcase ▸ List.mem_cons_self '/' t)
  unfold py_join
  rw [if_neg hhead]
  by_cases hd : d.data = [] ∨ d.data.getLast? = some '/'
  · rw [if_pos hd]
    show afterLastSlash (d.data ++ hash.data) = hash.data
    rw [afterLastSlash_append d.data hash.data hh]
    rcases hd with hnil | hslash
    · rw [hnil]; rfl
    · rw [afterLastSlash_of_ends_slash d.data hslash]; rfl
  · rw [if_neg hd]
    show afterLastSlash (d.data ++ '/' :: hash.data) = hash.data
    rw [show d.data ++ '/' :: hash.data = (d.data ++ ['/']) ++ hash.data by simp,
      afterLastSlash_append (d.data ++ ['/']) hash.data hh,
      afterLastSlash_of_ends_slash (d.data ++ ['/'])
        (by rw [List.getLast?_append]; rfl)]
    rfl

theorem py_basename_join_suffix (d hash suffix : String)
    (hh : '/' ∉ hash.data) (hs : '/' ∉ suffix.data) :
    py_basename (String.mk ((py_join d hash).data ++ suffix.data)) =
      String.mk (hash.data ++ suffix.data) := by
  unfold py_basename
  rw [show (String.mk ((py_join d hash).data ++ suffix.data)).data =
    (py_join d hash).data ++ suffix.data from rfl,
    afterLastSlash_append _ suffix.data hs, afterLastSlash_py_join d hash hh]

theorem digitChar_ne_slash : ∀ k, k < 10 → Nat.digitChar k ≠ '/' := by decide

theorem toDigitsCore_ne_slash : ∀ (fuel n : Nat) (l : List Char), '/' ∉ l →
    '/' ∉ Nat.toDigitsCore 10 fuel n l := by
  intro fuel
  induction fuel with
  | zero => intro n l hl; simpa [Nat.toDigitsCore] using hl
  | succ f ih =>
    intro n l hl
    have hd : '/' ∉ (Nat.digitChar (n % 10) :: l) := by
      intro hmem
      rcases List.mem_cons.mp hmem with heq | hmem2
      · exact digitChar_ne_slash (n % 10) (Nat.mod_lt n (by norm_num)) heq.symm
      · exact hl hmem2
    simp only [Nat.toDigitsCore]
    split_ifs with hz
    · exact hd
    · exact ih (n / 10) (Nat.digitChar (n % 10) :: l) hd

theorem toString_nat_ne_slash (m : Nat) : '/' ∉ (toString m).data := by
  show '/' ∉ Nat.toDigitsCore 10 (m + 1) m []
  exact toDigitsCore_ne_slash (m + 1) m [] (by simp)

theorem diff_suffix_no_slash (m : Nat) : '/' ∉ ("_diff_" ++ toString m ++ ".html").data := by
  intro hmem
  rw [String.data_append, String.data_append] at hmem
  rcases List.mem_append.mp hmem with hm1 | hm2
  · rcases List.mem_append.mp hm1 with hm3 | hm4
    · simp at hm3
    · exact toString_nat_ne_slash m hm4
  · simp at hm2

theorem check_change_diff_name (url css_selector diff_dir : String)
    (rendered : Except PyErr (List DomPart)) (st : CacheDir) (m : Nat) (r : CheckOutput)
    (h : check_if_url_changed url css_selector diff_dir rendered st m = .ok r)
    (hres : r.result = .CHANGE) :
    r.diff_created = some (py_basename (String.mk
      ((py_join diff_dir (get_file_name_for_url url)).data ++
        ("_diff_" ++ toString m ++ ".html").data))) := by
  cases rendered with
  | error e => simp only [check_if_url_changed] at h; cases h
  | ok parts =>
    cases hrc : read_cache (st (get_file_name_for_url url)) with
    | error e => simp only [check_if_url_changed, hrc] at h; cases h
    | ok found =>
      cases found with
      | none =>
        simp only [check_if_url_changed, hrc] at h
        rw [← Except.ok.inj h] at hres
        cases hres
      | some pair =>
        obtain ⟨cs0, cg0⟩ := pair
        simp only [check_if_url_changed, hrc] at h
        split_ifs at h with h1 h2 h3
        · rw [← Except.ok.inj h] at hres
          cases hres
        · rw [← Except.ok.inj h] at hres
          cases hres
        · rw [← Except.ok.inj h]
        · rw [← Except.ok.inj h] at hres
          cases hres

/-- C9: the storage key of a URL is the (deterministic) SHA-256 hex digest of
its UTF-8 bytes: a 64-character lowercase-hex string, hence never the literal
URL itself for any URL holding a non-hex character; and a diff artifact
created by a check is named exactly `{url_identity}_diff_{unix_millis}.html`. -/
theorem c9_identity_and_artifact_naming (url diff_dir : String) (m : Nat) :
    (∀ v : String, url = v → get_file_name_for_url url = get_file_name_for_url v) ∧
    (get_file_name_for_url url).length = 64 ∧
    (∀ c ∈ (get_file_name_for_url url).data, c ∈ hexDigits) ∧
    ((∃ c ∈ url.data, c ∉ hexDigits) → get_file_name_for_url url ≠ url) ∧
    (∀ (css_selector : String) (rendered : Except PyErr (List DomPart)) (st : CacheDir)
      (r : CheckOutput),
      check_if_url_changed url css_selector diff_dir rendered st m = .ok r →
      r.result = .CHANGE →
      r.diff_created = some (String.mk ((get_file_name_for_url url).data ++
        ("_diff_" ++ toString m ++ ".html").data))) := by
  refine ⟨fun v hv => by rw [hv], get_file_name_for_url_length url,
    get_file_name_for_url_hex url, ?_, ?_⟩
  · rintro ⟨c, hc, hnot⟩ heq
    exact hnot (get_file_name_for_url_hex url c (by rw [heq]; exact hc))
  · intro css_selector rendered st r h hres
    rw [check_change_diff_name url css_selector diff_dir rendered st m r h hres,
      py_basename_join_suffix diff_dir (get_file_name_for_url url)
        ("_diff_" ++ toString m ++ ".html") (get_file_name_for_url_no_slash url)
        (diff_suffix_no_slash m)]

/-- Witness for C9 at concrete inputs: the URL `http://x` (which holds
non-hex characters) and a concrete check whose outcome is `CHANGE`. -/
theorem c9_witness :
    get_file_name_for_url "http://x" = get_file_name_for_url "http://x" ∧
    get_file_name_for_url "http://x" ≠ "http://x" ∧
    (get_file_name_for_url "http://x").length = 64 ∧
    diff_of (check_if_url_changed "http://x" "html" "dir" (.ok [⟨false, ["y"]⟩])
      (fun _ => some (write_cache_data "html" ["x"])) 5) =
      some (String.mk ((get_file_name_for_url "http://x").data ++
        ("_diff_" ++ toString 5 ++ ".html").data)) := by
  have h := c9_identity_and_artifact_naming "http://x" "dir" 5
  refine ⟨h.1 "http://x" rfl, h.2.2.2.1 (by decide), h.2.1, ?_⟩
  cases hck : check_if_url_changed "http://x" "html" "dir" (.ok [⟨false, ["y"]⟩])
      (fun _ => some (write_cache_data "html" ["x"])) 5 with
  | error e =>
    have hr : resultOf (check_if_url_changed "http://x" "html" "dir" (.ok [⟨false, ["y"]⟩])
        (fun _ => some (write_cache_data "html" ["x"])) 5) = .ok .CHANGE := rfl
    rw [hck] at hr
    simp [resultOf, Except.map] at hr
  | ok r =>
    have hr : resultOf (check_if_url_changed "http://x" "html" "dir" (.ok [⟨false, ["y"]⟩])
        (fun _ => some (write_cache_data "html" ["x"])) 5) = .ok .CHANGE := rfl
    rw [hck] at hr
    have hres : r.result = .CHANGE := Except.ok.inj hr
    have hd := h.2.2.2.2 "html" (.ok [⟨false, ["y"]⟩])
      (fun _ => some (write_cache_data "html" ["x"])) r hck hres
    exact hd

end Watcher
